import Mathlib

/-!
Verification of the subscription manager of the TrendRadar repository
(src/subscription_manager.py), as a shallow embedding in Lean 4.

Python dictionaries with optional keys are modelled as structures with
`Option` fields; `dict.get(key, default)` becomes `Option.getD`; Python
truthiness of a value (`if not x`) is modelled by explicit `pyFalsy`
functions; the substring operator `needle in haystack` becomes
`strContains`; `str.lower()` becomes `pyLower`.
-/

/-- Python `str.lower()`: lowercase character by character.  (Defined by a
plain map over the character list so that it evaluates by `decide`.) -/
def pyLower (s : String) : String :=
  String.mk (s.data.map Char.toLower)

/-- Whether the first character list starts the second one. -/
def chListStarts : List Char → List Char → Bool
  | [], _ => true
  | _ :: _, [] => false
  | a :: as, b :: bs => a == b && chListStarts as bs

/-- Whether the first character list occurs contiguously in the second. -/
def chListHas (needle : List Char) : List Char → Bool
  | [] => needle.isEmpty
  | c :: rest => chListStarts needle (c :: rest) || chListHas needle rest

/-- Python substring test `needle in haystack`, over the character lists. -/
def strContains (haystack needle : String) : Bool :=
  chListHas needle.toList haystack.toList

/-- Truthiness of an optional string: `None` and the empty string are falsy. -/
def pyTruthyStr (s : Option String) : Bool :=
  match s with
  | none => false
  | some v => !v.isEmpty

/-- A webhook dictionary: keys `type`, `url`, `name`, each possibly absent. -/
structure Webhook where
  wtype : Option String
  url : Option String
  name : Option String
deriving Repr, DecidableEq

/-- The `keywords` dictionary of a subscription: keys `normal`, `required`,
`excluded`, `limit`, each possibly absent. -/
structure Keywords where
  normal : Option (List String)
  required : Option (List String)
  excluded : Option (List String)
  limit : Option Int
deriving Repr, DecidableEq

/-- A `keywords` dictionary with no keys at all. -/
def Keywords.emptyDict : Keywords := ⟨none, none, none, none⟩

/-- Truthiness of the `keywords` dictionary value: absent or empty is falsy. -/
def pyTruthyKeywords (k : Option Keywords) : Bool :=
  match k with
  | none => false
  | some kw => kw.normal.isSome || kw.required.isSome ||
      kw.excluded.isSome || kw.limit.isSome

/-- The `ai_search` dictionary of a subscription. -/
structure AiSearch where
  enabled : Option Bool
  trigger_threshold : Option Int
  search_keywords : Option (List String)
  time_range_hours : Option Int
  max_results : Option Int
deriving Repr, DecidableEq

/-- An `ai_search` dictionary with no keys at all. -/
def AiSearch.emptyDict : AiSearch := ⟨none, none, none, none, none⟩

/-- A subscription dictionary. -/
structure Subscription where
  id : Option String
  name : Option String
  enabled : Option Bool
  keywords : Option Keywords
  webhooks : Option (List Webhook)
  ai_search : Option AiSearch
deriving Repr, DecidableEq

/-- A news item: only `title` is read by the manager; `extra` stands for the
opaque remaining fields. -/
structure NewsItem where
  title : Option String
  extra : Nat
deriving Repr, DecidableEq

/-- Rule 1 of the matcher: `if excluded_kws: if any(ex.lower() in title for
ex in excluded_kws): continue`. -/
def rule1Rejects (excluded_kws : List String) (title : String) : Bool :=
  if excluded_kws.isEmpty then false
  else excluded_kws.any (fun ex => strContains title (pyLower ex))

/-- Rule 2 of the matcher: `if normal_kws: if not any(kw.lower() in title for
kw in normal_kws): continue`. -/
def rule2Rejects (normal_kws : List String) (title : String) : Bool :=
  if normal_kws.isEmpty then false
  else !(normal_kws.any (fun kw => strContains title (pyLower kw)))

/-- Rule 3 of the matcher: `if required_kws: if not all(req.lower() in title
for req in required_kws): continue`. -/
def rule3Rejects (required_kws : List String) (title : String) : Bool :=
  if required_kws.isEmpty then false
  else !(required_kws.all (fun req => strContains title (pyLower req)))

/-- The `for news in news_data` loop of `match_news_for_subscription`:
lowercase the title, apply the three `continue` rules in order, append the
survivors in order. -/
def matchLoop (normal_kws required_kws excluded_kws : List String) :
    List NewsItem → List NewsItem
  | [] => []
  | news :: rest =>
    let title := pyLower (news.title.getD "")
    if rule1Rejects excluded_kws title then
      matchLoop normal_kws required_kws excluded_kws rest
    else if rule2Rejects normal_kws title then
      matchLoop normal_kws required_kws excluded_kws rest
    else if rule3Rejects required_kws title then
      matchLoop normal_kws required_kws excluded_kws rest
    else
      news :: matchLoop normal_kws required_kws excluded_kws rest

/-- `SubscriptionManager.match_news_for_subscription`: read the keyword rule
sets with their defaults, run the filtering loop, then apply the limit
(`if limit > 0 and len(matched_news) > limit: matched_news[:limit]`). -/
def match_news_for_subscription (subscription : Subscription)
    (news_data : List NewsItem) : List NewsItem :=
  let keywords := subscription.keywords.getD Keywords.emptyDict
  let normal_kws := keywords.normal.getD []
  let required_kws := keywords.required.getD []
  let excluded_kws := keywords.excluded.getD []
  let limit := keywords.limit.getD 0
  let matched_news := matchLoop normal_kws required_kws excluded_kws news_data
  if limit > 0 ∧ (matched_news.length : Int) > limit then
    matched_news.take limit.toNat
  else
    matched_news

/-- Accessor: the `normal` keyword list of a subscription, with the defaults
the matcher uses. -/
def subNormal (subscription : Subscription) : List String :=
  (subscription.keywords.getD Keywords.emptyDict).normal.getD []

/-- Accessor: the `required` keyword list of a subscription. -/
def subRequired (subscription : Subscription) : List String :=
  (subscription.keywords.getD Keywords.emptyDict).required.getD []

/-- Accessor: the `excluded` keyword list of a subscription. -/
def subExcluded (subscription : Subscription) : List String :=
  (subscription.keywords.getD Keywords.emptyDict).excluded.getD []

/-- Accessor: the `limit` of a subscription, default 0. -/
def subLimit (subscription : Subscription) : Int :=
  (subscription.keywords.getD Keywords.emptyDict).limit.getD 0

/-- The acceptance predicate of the specification for one item: no excluded
term occurs in the lowercased title, some normal term occurs when `normal`
is non-empty, and all required terms occur when `required` is non-empty
(all terms lowercased). -/
def specPasses (normal_kws required_kws excluded_kws : List String)
    (news : NewsItem) : Bool :=
  let title := pyLower (news.title.getD "")
  excluded_kws.all (fun ex => !(strContains title (pyLower ex))) &&
  (normal_kws.isEmpty || normal_kws.any (fun kw => strContains title (pyLower kw))) &&
  (required_kws.all (fun req => strContains title (pyLower req)))

/-- The manager state: `validate_config` and `get_webhooks` only touch the
`subscriptions` list loaded from the configuration. -/
structure Manager where
  subscriptions : List Subscription
deriving Repr, DecidableEq

/-- The loop of `get_webhooks`: `if not webhook.get("url"): continue;
valid_webhooks.append(webhook)`. -/
def validWebhookLoop : List Webhook → List Webhook
  | [] => []
  | webhook :: rest =>
    if pyTruthyStr webhook.url then webhook :: validWebhookLoop rest
    else validWebhookLoop rest

/-- `SubscriptionManager.get_webhooks`, in state-passing form: it builds a
fresh list of the valid webhooks and performs no assignment to the manager
or to the subscription, so both come back as they went in. -/
def get_webhooks (m : Manager) (subscription : Subscription) :
    List Webhook × Manager × Subscription :=
  (validWebhookLoop (subscription.webhooks.getD []), m, subscription)

/-- `SubscriptionManager.should_enable_ai_search`: false when
`ai_search.enabled` (default false) is false, otherwise true exactly when
`matched_count < trigger_threshold` (default 3). -/
def should_enable_ai_search (subscription : Subscription)
    (matched_count : Int) : Bool :=
  let ai_config := subscription.ai_search.getD AiSearch.emptyDict
  if !(ai_config.enabled.getD false) then false
  else if matched_count < ai_config.trigger_threshold.getD 3 then true
  else false

/-- The dictionary returned by `get_ai_search_config`. -/
structure ResolvedAiConfig where
  enabled : Bool
  trigger_threshold : Int
  search_keywords : List String
  time_range_hours : Int
  max_results : Int
deriving Repr, DecidableEq

/-- `SubscriptionManager.get_ai_search_config`: take `search_keywords` from
`ai_search` when truthy (`if not search_keywords:` falls back to
`keywords.get("normal", [])`), and fill the other fields with their
defaults. -/
def get_ai_search_config (subscription : Subscription) : ResolvedAiConfig :=
  let ai_config := subscription.ai_search.getD AiSearch.emptyDict
  let keywords := subscription.keywords.getD Keywords.emptyDict
  let search_keywords0 := ai_config.search_keywords
  let search_keywords :=
    if (search_keywords0.getD []).isEmpty then keywords.normal.getD []
    else search_keywords0.getD []
  { enabled := ai_config.enabled.getD false
    trigger_threshold := ai_config.trigger_threshold.getD 3
    search_keywords := search_keywords
    time_range_hours := ai_config.time_range_hours.getD 24
    max_results := ai_config.max_results.getD 15 }

/-- `SubscriptionManager.export_config`, with the file write modelled as an
explicit outcome: the `try` body either succeeds or raises, and the
`except` clause turns any raise into a printed message, so the function
itself always returns normally.  The result pairs the (always normal)
outcome of the call with the message it prints. -/
def export_config (writeResult : Except String Unit) :
    Except String Unit × String :=
  match writeResult with
  | Except.ok _ => (Except.ok (), "[OK] 配置已导出")
  | Except.error e => (Except.ok (), "[错误] 导出配置失败: " ++ e)

/-- The default subscription identifier in validation messages:
`sub.get("id", f"订阅{idx}")`. -/
def subIdOf (idx : Nat) (subscription : Subscription) : String :=
  subscription.id.getD ("订阅" ++ toString idx)

/-- Truthiness of the `webhooks` dictionary value: absent or the empty list
is falsy. -/
def pyTruthyWebhooks (w : Option (List Webhook)) : Bool :=
  match w with
  | none => false
  | some l => !l.isEmpty

/-- The inner loop of `validate_config` over `enumerate(webhooks, 1)`:
one message per webhook with a falsy `url`. -/
def webhookUrlErrors (sub_id : String) : Nat → List Webhook → List String
  | _, [] => []
  | w_idx, webhook :: rest =>
    (if pyTruthyStr webhook.url then []
     else ["[" ++ sub_id ++ "] webhook[" ++ toString w_idx ++ "] 缺少 url"]) ++
    webhookUrlErrors sub_id (w_idx + 1) rest

/-- The messages `validate_config` collects for one subscription: missing
`name`, missing `keywords`, then either the missing-`webhooks` message, or
(for a truthy `webhooks` value) the empty-list message or the per-webhook
`url` messages. -/
def subErrorList (sub_id : String) (sub : Subscription) : List String :=
  (if pyTruthyStr sub.name then [] else ["[" ++ sub_id ++ "] 缺少 name 字段"]) ++
  (if pyTruthyKeywords sub.keywords then []
   else ["[" ++ sub_id ++ "] 缺少 keywords 字段"]) ++
  (if pyTruthyWebhooks sub.webhooks then
    (let webhooks := sub.webhooks.getD []
     if webhooks.isEmpty then ["[" ++ sub_id ++ "] webhooks 列表为空"]
     else webhookUrlErrors sub_id 1 webhooks)
   else ["[" ++ sub_id ++ "] 缺少 webhooks 字段"])

/-- The outer loop of `validate_config` over `enumerate(subscriptions, 1)`. -/
def collectErrors : Nat → List Subscription → List String
  | _, [] => []
  | idx, sub :: rest => subErrorList (subIdOf idx sub) sub ++ collectErrors (idx + 1) rest

/-- All messages `validate_config` collects for a manager. -/
def validate_errors (m : Manager) : List String :=
  collectErrors 1 m.subscriptions

/-- `SubscriptionManager.validate_config`: false for an empty subscription
list, otherwise true exactly when no message was collected. -/
def validate_config (m : Manager) : Bool :=
  if m.subscriptions.isEmpty then false
  else (validate_errors m).isEmpty

/-- `subErrorList` with the dead empty-list branch excised: a truthy
`webhooks` value goes straight to the per-webhook `url` checks. -/
def subErrorListLive (sub_id : String) (sub : Subscription) : List String :=
  (if pyTruthyStr sub.name then [] else ["[" ++ sub_id ++ "] 缺少 name 字段"]) ++
  (if pyTruthyKeywords sub.keywords then []
   else ["[" ++ sub_id ++ "] 缺少 keywords 字段"]) ++
  (if pyTruthyWebhooks sub.webhooks then
    webhookUrlErrors sub_id 1 (sub.webhooks.getD [])
   else ["[" ++ sub_id ++ "] 缺少 webhooks 字段"])

/-- `collectErrors` built on `subErrorListLive`. -/
def collectErrorsLive : Nat → List Subscription → List String
  | _, [] => []
  | idx, sub :: rest =>
    subErrorListLive (subIdOf idx sub) sub ++ collectErrorsLive (idx + 1) rest

/-- The number of violations of one subscription as the specification counts
them: one for a falsy `name`, one for a falsy `keywords`, one for a falsy
`webhooks`, and otherwise one per webhook with a falsy `url`. -/
def subViolationCount (sub : Subscription) : Nat :=
  (if pyTruthyStr sub.name then 0 else 1) +
  (if pyTruthyKeywords sub.keywords then 0 else 1) +
  (if pyTruthyWebhooks sub.webhooks then
    ((sub.webhooks.getD []).filter (fun w => !pyTruthyStr w.url)).length
   else 1)

/-- A concrete subscription whose rule excludes the term `ad`. -/
def subC2 : Subscription :=
  ⟨some "c2", some "tech", none, some ⟨some [], some [], some ["ad"], some 0⟩,
   none, none⟩

/-- A concrete news item whose title contains the excluded term. -/
def newsItemC2 : NewsItem := ⟨some "AD news today", 7⟩

/-- A concrete news list containing `newsItemC2`. -/
def newsListC2 : List NewsItem := [⟨some "chip release", 1⟩, newsItemC2]

/-- A concrete subscription whose three keyword rule sets are all empty. -/
def subC7 : Subscription :=
  ⟨some "c7", some "all", none, some ⟨some [], some [], some [], some 5⟩,
   none, none⟩

/-- A concrete news list for the empty-rule subscription. -/
def newsC7 : List NewsItem := [⟨some "alpha", 0⟩, ⟨some "beta", 1⟩]

/-- A concrete subscription with no `keywords` field at all. -/
def subC10 : Subscription := ⟨some "c10", some "plain", none, none, none, none⟩

/-- A concrete news list for the missing-keywords subscription. -/
def newsC10 : List NewsItem :=
  [⟨some "alpha", 0⟩, ⟨none, 1⟩, ⟨some "beta", 2⟩]

/- ===================== theorems ===================== -/

/-- `all` of a negated predicate is the negation of `any`. -/
theorem all_not_eq_not_any {α : Type} (l : List α) (p : α → Bool) :
    (l.all fun x => !p x) = !(l.any p) := by
  induction l with
  | nil => rfl
  | cons a t ih => simp [List.all_cons, List.any_cons, ih]

/-- The acceptance predicate of the specification is exactly the conjunction
of the negations of the three rejection rules of the loop. -/
theorem specPasses_eq_rules (normal_kws required_kws excluded_kws : List String)
    (news : NewsItem) :
    specPasses normal_kws required_kws excluded_kws news =
      (!rule1Rejects excluded_kws (pyLower (news.title.getD "")) &&
       !rule2Rejects normal_kws (pyLower (news.title.getD "")) &&
       !rule3Rejects required_kws (pyLower (news.title.getD ""))) := by
  unfold specPasses rule1Rejects rule2Rejects rule3Rejects
  rcases excluded_kws with _ | ⟨e, es⟩ <;>
    rcases normal_kws with _ | ⟨n, ns⟩ <;>
    rcases required_kws with _ | ⟨r, rs⟩ <;>
    simp [all_not_eq_not_any]

/-- The filtering loop of the matcher computes a `List.filter` by the
acceptance predicate of the specification. -/
theorem matchLoop_eq_filter (normal_kws required_kws excluded_kws : List String)
    (l : List NewsItem) :
    matchLoop normal_kws required_kws excluded_kws l =
      l.filter (specPasses normal_kws required_kws excluded_kws) := by
  induction l with
  | nil => rfl
  | cons news rest ih =>
    rw [List.filter_cons, specPasses_eq_rules]
    simp only [matchLoop]
    cases h1 : rule1Rejects excluded_kws (pyLower (news.title.getD "")) <;>
      cases h2 : rule2Rejects normal_kws (pyLower (news.title.getD "")) <;>
      cases h3 : rule3Rejects required_kws (pyLower (news.title.getD "")) <;>
      simp [h1, h2, h3, ih]

/-- With all three rule sets empty the loop keeps every item. -/
theorem matchLoop_empty_rules (l : List NewsItem) :
    matchLoop [] [] [] l = l := by
  induction l with
  | nil => rfl
  | cons news rest ih =>
    simp [matchLoop, rule1Rejects, rule2Rejects, rule3Rejects, ih]


/-- Every member of the match result satisfies the acceptance predicate of
the specification. -/
theorem mem_match_passes (sub : Subscription) (news_data : List NewsItem)
    (news : NewsItem)
    (hmem : news ∈ match_news_for_subscription sub news_data) :
    specPasses (subNormal sub) (subRequired sub) (subExcluded sub) news = true := by
  simp only [match_news_for_subscription] at hmem
  rw [matchLoop_eq_filter] at hmem
  have hfilter : news ∈ news_data.filter
      (specPasses (subNormal sub) (subRequired sub) (subExcluded sub)) := by
    split at hmem
    · exact List.mem_of_mem_take hmem
    · exact hmem
  exact List.of_mem_filter hfilter

/-- C1: `match_news_for_subscription` returns exactly the items whose
lowercased title passes the three keyword rules (no excluded term occurs,
some normal term occurs when `normal` is non-empty, all required terms
occur when `required` is non-empty, each term lowercased), in input order,
truncated to the first `limit` items when `limit > 0` and more than
`limit` items pass. -/
theorem match_news_for_subscription_spec (sub : Subscription)
    (news_data : List NewsItem) :
    match_news_for_subscription sub news_data =
      (if 0 < subLimit sub ∧ subLimit sub <
          ((news_data.filter
            (specPasses (subNormal sub) (subRequired sub) (subExcluded sub))).length : Int)
       then (news_data.filter
            (specPasses (subNormal sub) (subRequired sub) (subExcluded sub))).take
              (subLimit sub).toNat
       else news_data.filter
            (specPasses (subNormal sub) (subRequired sub) (subExcluded sub))) := by
  simp only [match_news_for_subscription, subLimit, subNormal, subRequired, subExcluded]
  rw [matchLoop_eq_filter]

/-- C2: an item whose lowercased title contains some lowercased term of the
excluded set of the subscription never appears in the match result,
whatever the normal and required sets are. -/
theorem excluded_term_vetoes (sub : Subscription) (news_data : List NewsItem)
    (news : NewsItem)
    (hhit : (subExcluded sub).any
      (fun ex => strContains (pyLower (news.title.getD "")) (pyLower ex)) = true) :
    news ∉ match_news_for_subscription sub news_data := by
  intro hmem
  have hpass := mem_match_passes sub news_data news hmem
  rw [specPasses_eq_rules] at hpass
  have h1 : rule1Rejects (subExcluded sub) (pyLower (news.title.getD "")) = true := by
    unfold rule1Rejects
    rcases he : subExcluded sub with _ | ⟨e, es⟩
    · rw [he] at hhit; simp at hhit
    · rw [he] at hhit; simpa using hhit
  rw [h1] at hpass
  simp at hpass

/-- C2 witness: a concrete item titled `AD news today` is kept out by the
excluded term `ad`. -/
theorem excluded_term_vetoes_witness :
    newsItemC2 ∉ match_news_for_subscription subC2 newsListC2 :=
  excluded_term_vetoes subC2 newsListC2 newsItemC2 (by decide)

/-- C7: with an empty `normal` set rule 2 rejects nothing, with an empty
`required` set rule 3 rejects nothing, and with all three sets empty the
filtering loop of `match_news_for_subscription` accepts every item. -/
theorem empty_rule_sets_accept_all (sub : Subscription) (news_data : List NewsItem)
    (hn : subNormal sub = []) (hr : subRequired sub = [])
    (he : subExcluded sub = []) :
    (∀ title, rule2Rejects (subNormal sub) title = false) ∧
    (∀ title, rule3Rejects (subRequired sub) title = false) ∧
    matchLoop (subNormal sub) (subRequired sub) (subExcluded sub) news_data =
      news_data := by
  rw [hn, hr, he]
  exact ⟨fun title => rfl, fun title => rfl, matchLoop_empty_rules news_data⟩

/-- C7 witness: a concrete subscription with all three rule sets empty keeps
both items of a concrete news list. -/
theorem empty_rule_sets_accept_all_witness :
    (∀ title, rule2Rejects (subNormal subC7) title = false) ∧
    (∀ title, rule3Rejects (subRequired subC7) title = false) ∧
    matchLoop (subNormal subC7) (subRequired subC7) (subExcluded subC7) newsC7 =
      newsC7 :=
  empty_rule_sets_accept_all subC7 newsC7 (by decide) (by decide) (by decide)

/-- C10: a subscription without a `keywords` field, or with an empty
`keywords` dictionary, matches every news item and applies no truncation:
the result is the whole input list. -/
theorem missing_keywords_matches_everything (sub : Subscription)
    (news_data : List NewsItem)
    (h : sub.keywords = none ∨ sub.keywords = some Keywords.emptyDict) :
    match_news_for_subscription sub news_data = news_data := by
  have hkw : sub.keywords.getD Keywords.emptyDict = Keywords.emptyDict := by
    rcases h with h | h <;> rw [h] <;> rfl
  simp only [match_news_for_subscription]
  rw [hkw]
  simp only [Keywords.emptyDict, Option.getD_none]
  split
  · rename_i hc
    exact absurd hc.1 (lt_irrefl 0)
  · exact matchLoop_empty_rules news_data

/-- C10 witness: a concrete subscription without a `keywords` field returns
a concrete three-item news list unchanged. -/
theorem missing_keywords_matches_everything_witness :
    subC10.keywords = none ∧
    match_news_for_subscription subC10 newsC10 = newsC10 :=
  ⟨by decide, missing_keywords_matches_everything subC10 newsC10 (Or.inl (by decide))⟩

/-- C3: `should_enable_ai_search` is true exactly when `ai_search.enabled`
(default false) holds and the matched count is below `trigger_threshold`
(default 3); in particular it is false at the threshold itself. -/
theorem should_enable_ai_search_spec (sub : Subscription) (matched_count : Int) :
    (should_enable_ai_search sub matched_count =
      ((sub.ai_search.getD AiSearch.emptyDict).enabled.getD false &&
       decide (matched_count <
         (sub.ai_search.getD AiSearch.emptyDict).trigger_threshold.getD 3))) ∧
    should_enable_ai_search sub
      ((sub.ai_search.getD AiSearch.emptyDict).trigger_threshold.getD 3) = false := by
  constructor
  · simp only [should_enable_ai_search]
    cases h : (sub.ai_search.getD AiSearch.emptyDict).enabled.getD false
    · simp [h]
    · by_cases hm : matched_count <
          (sub.ai_search.getD AiSearch.emptyDict).trigger_threshold.getD 3 <;>
        simp [h, hm]
  · simp only [should_enable_ai_search]
    cases h : (sub.ai_search.getD AiSearch.emptyDict).enabled.getD false <;>
      simp [h]

/-- C6: `get_ai_search_config` resolves `search_keywords` to the explicit
`ai_search.search_keywords` list when it is present and non-empty and to
`keywords.normal` (default empty) otherwise, and fills the remaining
fields from `ai_search` with defaults false, 3, 24, 15. -/
theorem get_ai_search_config_spec (sub : Subscription) :
    (get_ai_search_config sub).search_keywords =
      (match (sub.ai_search.getD AiSearch.emptyDict).search_keywords with
       | some l =>
           if l = [] then (sub.keywords.getD Keywords.emptyDict).normal.getD []
           else l
       | none => (sub.keywords.getD Keywords.emptyDict).normal.getD []) ∧
    (get_ai_search_config sub).enabled =
      (sub.ai_search.getD AiSearch.emptyDict).enabled.getD false ∧
    (get_ai_search_config sub).trigger_threshold =
      (sub.ai_search.getD AiSearch.emptyDict).trigger_threshold.getD 3 ∧
    (get_ai_search_config sub).time_range_hours =
      (sub.ai_search.getD AiSearch.emptyDict).time_range_hours.getD 24 ∧
    (get_ai_search_config sub).max_results =
      (sub.ai_search.getD AiSearch.emptyDict).max_results.getD 15 := by
  refine ⟨?_, rfl, rfl, rfl, rfl⟩
  simp only [get_ai_search_config]
  cases h : (sub.ai_search.getD AiSearch.emptyDict).search_keywords with
  | none => simp [h]
  | some l =>
    cases l with
    | nil => simp [h]
    | cons a t => simp [h]

/-- The webhook loop computes a `List.filter` by url truthiness. -/
theorem validWebhookLoop_eq_filter (ws : List Webhook) :
    validWebhookLoop ws = ws.filter (fun w => pyTruthyStr w.url) := by
  induction ws with
  | nil => rfl
  | cons w rest ih =>
    rw [List.filter_cons]
    cases h : pyTruthyStr w.url <;> simp [validWebhookLoop, h, ih]

/-- C8: `get_webhooks` returns exactly the webhook entries with a present
and non-empty `url`, in their original order, and leaves the manager state
and the subscription record exactly as they were. -/
theorem get_webhooks_spec (m : Manager) (sub : Subscription) :
    (get_webhooks m sub).1 =
      (sub.webhooks.getD []).filter (fun w => pyTruthyStr w.url) ∧
    (get_webhooks m sub).2.1 = m ∧ (get_webhooks m sub).2.2 = sub :=
  ⟨validWebhookLoop_eq_filter (sub.webhooks.getD []), rfl, rfl⟩

/-- C5 counterexample: at a failing write, `export_config` returns normally
with `Except.ok` — the failure is not propagated as an error to the
caller. -/
theorem export_config_counterexample :
    (export_config (Except.error "boom")).1 = Except.ok () ∧
    (export_config (Except.error "boom")).1 ≠ Except.error "boom" :=
  ⟨rfl, fun h => Except.noConfusion h⟩

/-- C5 amended: on a write failure `export_config` catches the exception,
reports it in its printed message and returns normally; no error reaches
the caller on any write outcome. -/
theorem export_config_amended (e : String) :
    (export_config (Except.error e)).1 = Except.ok () ∧
    (export_config (Except.error e)).2 = "[错误] 导出配置失败: " ++ e ∧
    (export_config (Except.ok ())).1 = Except.ok () :=
  ⟨rfl, rfl, rfl⟩

/-- The inner url loop emits one message per webhook with a falsy url,
whatever the start index. -/
theorem webhookUrlErrors_length (sub_id : String) (ws : List Webhook) :
    ∀ w_idx, (webhookUrlErrors sub_id w_idx ws).length =
      (ws.filter (fun w => !pyTruthyStr w.url)).length := by
  induction ws with
  | nil => intro w_idx; rfl
  | cons w rest ih =>
    intro w_idx
    rw [List.filter_cons]
    cases h : pyTruthyStr w.url <;> simp [webhookUrlErrors, h, ih]

/-- A truthy `webhooks` value holds a non-empty list. -/
theorem truthy_webhooks_not_empty (w : Option (List Webhook))
    (h : pyTruthyWebhooks w = true) : (w.getD []).isEmpty = false := by
  cases w with
  | none => exact absurd h (by simp [pyTruthyWebhooks])
  | some l => simpa [pyTruthyWebhooks] using h

/-- One subscription contributes exactly its violation count in messages. -/
theorem subErrorList_length (sub_id : String) (sub : Subscription) :
    (subErrorList sub_id sub).length = subViolationCount sub := by
  unfold subErrorList subViolationCount
  cases hw : pyTruthyWebhooks sub.webhooks
  · cases hn : pyTruthyStr sub.name <;> cases hk : pyTruthyKeywords sub.keywords <;>
      simp [hn, hk, hw]
  · have hne := truthy_webhooks_not_empty sub.webhooks hw
    cases hn : pyTruthyStr sub.name <;> cases hk : pyTruthyKeywords sub.keywords <;>
      simp [hn, hk, hw, hne, webhookUrlErrors_length] <;> omega

/-- The outer loop collects, in total, one message per violation. -/
theorem collectErrors_length (subs : List Subscription) :
    ∀ idx, (collectErrors idx subs).length =
      (subs.map subViolationCount).sum := by
  induction subs with
  | nil => intro idx; rfl
  | cons s rest ih => intro idx; simp [collectErrors, subErrorList_length, ih]

/-- The total violation count vanishes exactly when every subscription is
violation free. -/
theorem sum_counts_zero_iff (subs : List Subscription) :
    (subs.map subViolationCount).sum = 0 ↔
      ∀ sub ∈ subs, subViolationCount sub = 0 := by
  induction subs with
  | nil => simp
  | cons s rest ih => simp [Nat.add_eq_zero, ih]

/-- C4: `validate_config` is true exactly when the subscription list is
non-empty and no subscription has a violation (falsy `name`, falsy
`keywords`, falsy `webhooks`, or a webhook with a falsy `url`); the
message list has exactly one entry per violation across all
subscriptions, a missing `webhooks` field counting as one violation. -/
theorem validate_config_spec (m : Manager) :
    (validate_config m = true ↔
      m.subscriptions ≠ [] ∧
      ∀ sub ∈ m.subscriptions, subViolationCount sub = 0) ∧
    (validate_errors m).length = (m.subscriptions.map subViolationCount).sum := by
  have hlen : (validate_errors m).length =
      (m.subscriptions.map subViolationCount).sum :=
    collectErrors_length m.subscriptions 1
  refine ⟨?_, hlen⟩
  unfold validate_config
  cases hs : m.subscriptions.isEmpty
  · have hne : m.subscriptions ≠ [] := by
      intro he; rw [he] at hs; simp at hs
    rw [if_neg (by simp [hs])]
    constructor
    · intro h
      have herrs : validate_errors m = [] := List.isEmpty_iff.mp h
      have hzero : (m.subscriptions.map subViolationCount).sum = 0 := by
        rw [← hlen, herrs]; rfl
      exact ⟨hne, (sum_counts_zero_iff _).mp hzero⟩
    · rintro ⟨-, hall⟩
      have hzero : (validate_errors m).length = 0 := by
        rw [hlen]; exact (sum_counts_zero_iff _).mpr hall
      have herrs : validate_errors m = [] := List.length_eq_zero.mp hzero
      simp [herrs]
  · have he : m.subscriptions = [] := List.isEmpty_iff.mp hs
    rw [if_pos (by simp [hs])]
    simp [he]

/-- One subscription contributes the same messages with or without the
empty-webhooks-list branch: that branch is dead code. -/
theorem subErrorList_eq_live (sub_id : String) (sub : Subscription) :
    subErrorList sub_id sub = subErrorListLive sub_id sub := by
  unfold subErrorList subErrorListLive
  cases hw : pyTruthyWebhooks sub.webhooks
  · simp [hw]
  · have hne := truthy_webhooks_not_empty sub.webhooks hw
    simp [hw, hne]

/-- The outer loop is unchanged by excising the empty-list branch. -/
theorem collectErrors_eq_live (subs : List Subscription) :
    ∀ idx, collectErrors idx subs = collectErrorsLive idx subs := by
  induction subs with
  | nil => intro idx; rfl
  | cons s rest ih =>
    intro idx
    simp [collectErrors, collectErrorsLive, subErrorList_eq_live, ih]

/-- C9: the branch of `validate_config` that reports an empty `webhooks`
list is unreachable: the collected messages equal those of the program
with that branch excised, for every manager state. -/
theorem empty_webhooks_branch_dead (m : Manager) :
    validate_errors m = collectErrorsLive 1 m.subscriptions :=
  collectErrors_eq_live m.subscriptions 1
